import Mathlib

/-!
Shallow embedding of the `go-invoice-frontend` client, for checking its
natural-language specification.

The embedded code:
* `src/src/utils/api.ts` — the `ApiService` axios response interceptor that
  coordinates single-flight token refresh (fields `isRefreshing`,
  `failedQueue`, method `processQueue`, `logout`), modelled as explicit state
  passing split at the interceptor's only suspension point (the `await` on
  the refresh HTTP call);
* `src/src/context/AuthContext.tsx` — the `catch` block of `AuthProvider.login`;
* `src/unnamed/part_002` (`InvoiceForm`) — `handleItemChange`, `addItem`,
  `removeItem`;
* `src/src/pages/CreateInvoicePage.tsx` — the initial `items` state.
-/

namespace Api

/-- The two browser-storage slots `access_token` / `refresh_token`
(`localStorage.getItem` returns `null` for a missing key, hence `Option`). -/
structure TokenStore where
  access_token : Option String
  refresh_token : Option String
deriving DecidableEq

/-- `ApiService.logout` (api.ts lines 159-162): removes both storage keys. -/
def logout (ts : TokenStore) : TokenStore :=
  { ts with access_token := none, refresh_token := none }

/-- The part of an axios request config the interceptor inspects:
`url` and the `_retry` marker it stamps on replayed requests. -/
structure Request where
  url : String
  _retry : Bool
deriving DecidableEq

/-- The part of an axios rejection the interceptor inspects:
`error.response?.status` (`none` when there was no response) and
`error.config` (the original request). -/
structure AxiosError where
  status : Option Nat
  config : Request
deriving DecidableEq

/-- `isPrefixL pat s` : `pat` is a prefix of `s` (character lists). -/
def isPrefixL : List Char → List Char → Bool
  | [], _ => true
  | _ :: _, [] => false
  | a :: as, b :: bs => a == b && isPrefixL as bs

/-- `includesL pat s` : `pat` occurs as a contiguous substring of `s`. -/
def includesL (pat : List Char) : List Char → Bool
  | [] => isPrefixL pat []
  | c :: rest => isPrefixL pat (c :: rest) || includesL pat rest

/-- JavaScript's `String.prototype.includes`. -/
def urlIncludes (url pat : String) : Bool :=
  includesL pat.toList url.toList

/-- api.ts lines 53-55: the auth-endpoint exemption test
`url?.includes('/auth/sign-in') || url?.includes('/auth/sign-up') ||
url?.includes('/auth/refresh-token')`. -/
def isAuthEndpointUrl (url : String) : Bool :=
  urlIncludes url "/auth/sign-in" || urlIncludes url "/auth/sign-up" ||
    urlIncludes url "/auth/refresh-token"

/-- Interceptor coordination state (fields `isRefreshing` and `failedQueue` of
`ApiService`), the token storage, plus observers of the side effects the
claims speak about: `pendingRefresh` (a refresh HTTP call has been dispatched
and has not yet settled), `refreshCalls` (number of refresh HTTP dispatches)
and `redirects` (number of `window.location.href = '/login'` assignments).
Waiters pushed on `failedQueue` are identified by numeric ids. -/
structure St where
  isRefreshing : Bool
  failedQueue : List Nat
  store : TokenStore
  pendingRefresh : Bool
  refreshCalls : Nat
  redirects : Nat
deriving DecidableEq

/-- What the synchronous prefix of the response-error interceptor
(api.ts lines 48-113, up to the `await` of the refresh call) does with one
rejected response. -/
inductive EntryOut where
  /-- line 113: status is not 401, or the request was already retried —
  `Promise.reject(error)` with the original error. -/
  | passThrough
  /-- line 56: 401 on an auth endpoint — `Promise.reject(error)`. -/
  | rejectAuthEndpoint
  /-- lines 61-68: a refresh is already in flight — pushed onto `failedQueue`. -/
  | enqueued
  /-- lines 71-86: this call starts the refresh — `_retry` stamped,
  `isRefreshing` set, the refresh HTTP call dispatched with the stored
  refresh token, execution suspended at the `await`. -/
  | refreshDispatched (refresh_token : String) (retried : Request)
  /-- lines 106-110: no refresh token stored — `logout()`, redirect,
  `Promise.reject(error)`. -/
  | rejectNoToken
deriving DecidableEq

/-- The response-error interceptor from its entry to its first suspension
point (the `await axios.post` of the refresh call), api.ts lines 48-113.
There is no `await` before that point, so this whole step is atomic on the
event loop. `wid` is the id given to this caller if it becomes a waiter. -/
def handleResponseError (st : St) (e : AxiosError) (wid : Nat) : St × EntryOut :=
  if e.status == some 401 && !e.config._retry then
    if isAuthEndpointUrl e.config.url then
      (st, EntryOut.rejectAuthEndpoint)
    else if st.isRefreshing then
      ({ st with failedQueue := st.failedQueue ++ [wid] }, EntryOut.enqueued)
    else
      let retried : Request := { e.config with _retry := true }
      let st1 : St := { st with isRefreshing := true }
      match st1.store.refresh_token with
      | some rt =>
          ({ st1 with pendingRefresh := true, refreshCalls := st1.refreshCalls + 1 },
            EntryOut.refreshDispatched rt retried)
      | none =>
          ({ st1 with store := logout st1.store, redirects := st1.redirects + 1 },
            EntryOut.rejectNoToken)
  else
    (st, EntryOut.passThrough)

/-- How the refresh HTTP call settles: `response.data.data.access_token` on
fulfilment, or rejection. -/
inductive RefreshOutcome where
  | success (access_token : String)
  | failure
deriving DecidableEq

/-- What a waiter's promise receives when the queue is drained. -/
inductive WaiterSignal where
  | resolved
  | rejected
deriving DecidableEq

/-- What the original (triggering) caller receives once the refresh settles. -/
inductive SettleOut where
  /-- line 95-96: replay of the original request with the given
  `Authorization` header value. -/
  | replay (authHeader : String)
  /-- line 102 / line 110: `Promise.reject`. -/
  | rejectCaller
deriving DecidableEq

/-- `ApiService.processQueue` (api.ts lines 118-128): settle every queued
waiter — all rejected when called with an error, all resolved when called
with `null` — then clear the queue. -/
def processQueue (st : St) (isError : Bool) : St × List (Nat × WaiterSignal) :=
  ({ st with failedQueue := [] },
    st.failedQueue.map (fun w =>
      (w, if isError then WaiterSignal.rejected else WaiterSignal.resolved)))

/-- The continuation of the interceptor after the `await` of the refresh call
settles (api.ts lines 88-105): on fulfilment store the new access token,
drain the queue with `null`, replay the original request with the fresh
bearer header; on rejection drain the queue with the error, `logout()`,
redirect, reject the caller; in both cases the `finally` resets
`isRefreshing`. -/
def onRefreshSettled (st : St) (out : RefreshOutcome) :
    St × List (Nat × WaiterSignal) × SettleOut :=
  match out with
  | RefreshOutcome.success tok =>
      let st1 : St := { st with store := { st.store with access_token := some tok } }
      let drained := processQueue st1 false
      ({ drained.1 with isRefreshing := false, pendingRefresh := false },
        drained.2, SettleOut.replay ("Bearer " ++ tok))
  | RefreshOutcome.failure =>
      let drained := processQueue st true
      let st1 : St :=
        { drained.1 with
          store := logout drained.1.store
          redirects := drained.1.redirects + 1 }
      ({ st1 with isRefreshing := false, pendingRefresh := false },
        drained.2, SettleOut.rejectCaller)

/-- Which signal the drain of one refresh attempt delivers to every waiter. -/
def settleSignal : RefreshOutcome → WaiterSignal
  | RefreshOutcome.success _ => WaiterSignal.resolved
  | RefreshOutcome.failure => WaiterSignal.rejected

/-- JavaScript string interpolation of a possibly-`null` storage read. -/
def jsString : Option String → String
  | some s => s
  | none => "null"

/-- api.ts line 64: a resumed waiter rebuilds its `Authorization` header from
storage at resumption time. -/
def waiterReplayHeader (st : St) : String :=
  "Bearer " ++ jsString st.store.access_token

/-- A 401-burst error that engages the refresh protocol: status 401, not yet
retried, not an auth endpoint. -/
def PlainAuthFailure (e : AxiosError) : Prop :=
  e.status = some 401 ∧ e.config._retry = false ∧ isAuthEndpointUrl e.config.url = false

instance (e : AxiosError) : Decidable (PlainAuthFailure e) := by
  unfold PlainAuthFailure; infer_instance

/-- A burst of rejected responses hitting the interceptor one after another
on the event loop, before any refresh settles: each is handled by the atomic
synchronous prefix `handleResponseError`. Returns the final state and what
each response got. -/
def runBurst : St → List (AxiosError × Nat) → St × List EntryOut
  | st, [] => (st, [])
  | st, ew :: rest =>
      let first := handleResponseError st ew.1 ew.2
      let later := runBurst first.1 rest
      (later.1, first.2 :: later.2)

/-- Event-loop events relevant to the refresh coordination: a response
rejection reaching the interceptor, or the pending refresh call settling. -/
inductive Event where
  | response (status : Option Nat) (url : String) (retried : Bool) (wid : Nat)
  | refreshSettled (out : RefreshOutcome)

/-- One event-loop step of the coordination state. A `refreshSettled` event
only fires while a refresh call is actually pending. -/
def step (st : St) : Event → St
  | Event.response s u r w => (handleResponseError st ⟨s, ⟨u, r⟩⟩ w).1
  | Event.refreshSettled out =>
      if st.pendingRefresh then (onRefreshSettled st out).1 else st

/-- The state of a freshly constructed `ApiService`: not refreshing, empty
queue, whatever the storage holds. -/
def initSt (store : TokenStore) : St where
  isRefreshing := false
  failedQueue := []
  store := store
  pendingRefresh := false
  refreshCalls := 0
  redirects := 0

/-- Run the interceptor state machine over a list of events. -/
def run (store : TokenStore) (evs : List Event) : St :=
  evs.foldl step (initSt store)

/-- When a refresh is already in flight, a plain 401 is appended to
`failedQueue` and nothing else changes (api.ts lines 59-68). -/
theorem handleResponseError_enqueue (st : St) (e : AxiosError) (w : Nat)
    (hr : st.isRefreshing = true) (he : PlainAuthFailure e) :
    handleResponseError st e w
      = ({ st with failedQueue := st.failedQueue ++ [w] }, EntryOut.enqueued) := by
  obtain ⟨h1, h2, h3⟩ := he
  simp [handleResponseError, h1, h2, h3, hr]

/-- While `isRefreshing` is set, a whole burst of plain 401s only appends the
waiters in order; no other state component moves. -/
theorem runBurst_enqueue_phase (errs : List (AxiosError × Nat)) (st : St)
    (hr : st.isRefreshing = true)
    (hall : ∀ ew ∈ errs, PlainAuthFailure ew.1) :
    runBurst st errs
      = ({ st with failedQueue := st.failedQueue ++ errs.map Prod.snd },
          errs.map (fun _ => EntryOut.enqueued)) := by
  induction errs generalizing st with
  | nil => simp [runBurst]
  | cons ew rest ih =>
      have h1 := handleResponseError_enqueue st ew.1 ew.2 hr
        (hall ew (List.mem_cons_self ew rest))
      have h2 := ih { st with failedQueue := st.failedQueue ++ [ew.2] } hr
        (fun x hx => hall x (List.mem_cons_of_mem _ hx))
      simp [runBurst, h1, h2]

/-- A plain 401 arriving while nothing is refreshing and a refresh token is
stored: `_retry` is stamped, `isRefreshing` set, and the refresh call
dispatched, all in one synchronous step (api.ts lines 71-86). -/
theorem handleResponseError_dispatch (st : St) (e : AxiosError) (w : Nat) (rt : String)
    (h0 : st.isRefreshing = false) (h1 : st.store.refresh_token = some rt)
    (he : PlainAuthFailure e) :
    handleResponseError st e w
      = ({ st with
            isRefreshing := true
            pendingRefresh := true
            refreshCalls := st.refreshCalls + 1 },
          EntryOut.refreshDispatched rt { e.config with _retry := true }) := by
  obtain ⟨p1, p2, p3⟩ := he
  simp [handleResponseError, p1, p2, p3, h0, h1]

/-- A plain 401 arriving while nothing is refreshing and no refresh token is
stored: tokens cleared, redirect fired, caller rejected — and `isRefreshing`
is left set, since the `finally` of api.ts line 103 does not cover this
branch (api.ts lines 71-72 and 106-111). -/
theorem handleResponseError_noToken (st : St) (e : AxiosError) (w : Nat)
    (h0 : st.isRefreshing = false) (h1 : st.store.refresh_token = none)
    (he : PlainAuthFailure e) :
    handleResponseError st e w
      = ({ st with
            isRefreshing := true
            store := logout st.store
            redirects := st.redirects + 1 },
          EntryOut.rejectNoToken) := by
  obtain ⟨p1, p2, p3⟩ := he
  simp [handleResponseError, p1, p2, p3, h0, h1, logout]

/-- Quiescence invariant: whenever `isRefreshing` is clear, `failedQueue` is
empty. -/
def QueueInv (st : St) : Prop := st.isRefreshing = false → st.failedQueue = []

/-- `handleResponseError` preserves the quiescence invariant: every branch
that leaves or puts a waiter in the queue also leaves `isRefreshing` set. -/
theorem queueInv_handle (st : St) (e : AxiosError) (w : Nat) (h : QueueInv st) :
    QueueInv (handleResponseError st e w).1 := by
  unfold QueueInv handleResponseError
  split
  · split
    · exact h
    · split
      · rename_i hr
        intro hf
        simp at hf
        simp [hf] at hr
      · intro hf
        cases hrt : st.store.refresh_token <;> simp [hrt] at hf
  · exact h

/-- After a refresh settles, the queue has been cleared. -/
theorem onRefreshSettled_failedQueue (st : St) (out : RefreshOutcome) :
    (onRefreshSettled st out).1.failedQueue = [] := by
  cases out <;> simp [onRefreshSettled, processQueue]

/-- `step` preserves the quiescence invariant. -/
theorem queueInv_step (st : St) (ev : Event) (h : QueueInv st) : QueueInv (step st ev) := by
  cases ev with
  | response s u r w => exact queueInv_handle st ⟨s, ⟨u, r⟩⟩ w h
  | refreshSettled out =>
      by_cases hp : st.pendingRefresh
      · intro _
        simp only [step, hp, if_pos]
        exact onRefreshSettled_failedQueue st out
      · simpa [step, hp] using h

/-- The quiescence invariant holds along every run of the interceptor. -/
theorem queueInv_foldl (evs : List Event) (st : St) (h : QueueInv st) :
    QueueInv (evs.foldl step st) := by
  induction evs generalizing st with
  | nil => exact h
  | cons ev rest ih => exact ih _ (queueInv_step st ev h)

/-- Every reachable interceptor state satisfies the quiescence invariant. -/
theorem queueInv_run (store : TokenStore) (evs : List Event) : QueueInv (run store evs) :=
  queueInv_foldl evs (initSt store) (fun _ => rfl)

/-- Prepending the same string to two distinct strings keeps them distinct. -/
theorem bearer_append_inj (a b : String) (h : ("Bearer " ++ a : String) = "Bearer " ++ b) :
    a = b := by
  have hd := congrArg String.data h
  simp [String.data_append] at hd
  exact String.ext hd

/-- A concrete mid-refresh state (two queued waiters) used by witnesses. -/
def exMidSt : St := ⟨true, [5, 6], ⟨some "old", some "rt"⟩, true, 1, 0⟩

/-- A concrete plain 401 failure on a protected endpoint. -/
def exErr : AxiosError := ⟨some 401, ⟨"/v1/protected/me", false⟩⟩

/-- A concrete storage holding an access token but no refresh token. -/
def exStoreNoRefresh : TokenStore := ⟨some "tok", none⟩

/-- Claim C1: for every burst of concurrent plain 401 failures (N ≥ 1, each
hitting the interceptor before the shared refresh settles), exactly one
refresh call is dispatched — the first failure sets `isRefreshing` and
dispatches the refresh in one atomic synchronous step, and every later
failure is enqueued on `failedQueue` as a waiter, issuing no further refresh
call. -/
theorem single_flight_refresh (st : St) (rt : String) (e : AxiosError) (w : Nat)
    (rest : List (AxiosError × Nat))
    (h0 : st.isRefreshing = false)
    (h1 : st.store.refresh_token = some rt)
    (he : PlainAuthFailure e)
    (hrest : ∀ ew ∈ rest, PlainAuthFailure ew.1) :
    (runBurst st ((e, w) :: rest)).2
        = EntryOut.refreshDispatched rt { e.config with _retry := true }
            :: rest.map (fun _ => EntryOut.enqueued)
      ∧ (runBurst st ((e, w) :: rest)).1.refreshCalls = st.refreshCalls + 1
      ∧ (runBurst st ((e, w) :: rest)).1.isRefreshing = true
      ∧ (runBurst st ((e, w) :: rest)).1.failedQueue
          = st.failedQueue ++ rest.map Prod.snd := by
  obtain ⟨p1, p2, p3⟩ := he
  have hfirst : handleResponseError st e w
      = ({ st with
            isRefreshing := true
            pendingRefresh := true
            refreshCalls := st.refreshCalls + 1 },
          EntryOut.refreshDispatched rt { e.config with _retry := true }) := by
    simp [handleResponseError, p1, p2, p3, h0, h1]
  have hrest' := runBurst_enqueue_phase rest
    { st with
      isRefreshing := true
      pendingRefresh := true
      refreshCalls := st.refreshCalls + 1 } rfl hrest
  refine ⟨?_, ?_, ?_, ?_⟩ <;> simp [runBurst, hfirst, hrest']

/-- Claim C1 witness: a concrete burst of two 401s dispatches one refresh and
queues the second caller. -/
theorem single_flight_refresh_witness :
    (initSt ⟨some "old", some "rt"⟩).isRefreshing = false
  ∧ (initSt ⟨some "old", some "rt"⟩).store.refresh_token = some "rt"
  ∧ PlainAuthFailure ⟨some 401, ⟨"/v1/protected/me", false⟩⟩
  ∧ (∀ ew ∈ [((⟨some 401, ⟨"/v1/protected/clients", false⟩⟩ : AxiosError), 1)],
      PlainAuthFailure ew.1)
  ∧ ((runBurst (initSt ⟨some "old", some "rt"⟩)
        ((⟨some 401, ⟨"/v1/protected/me", false⟩⟩, 0)
          :: [(⟨some 401, ⟨"/v1/protected/clients", false⟩⟩, 1)])).2
        = EntryOut.refreshDispatched "rt" ⟨"/v1/protected/me", true⟩
            :: [((⟨some 401, ⟨"/v1/protected/clients", false⟩⟩ : AxiosError), 1)].map
                (fun _ => EntryOut.enqueued)
      ∧ (runBurst (initSt ⟨some "old", some "rt"⟩)
          ((⟨some 401, ⟨"/v1/protected/me", false⟩⟩, 0)
            :: [(⟨some 401, ⟨"/v1/protected/clients", false⟩⟩, 1)])).1.refreshCalls
          = (initSt ⟨some "old", some "rt"⟩).refreshCalls + 1
      ∧ (runBurst (initSt ⟨some "old", some "rt"⟩)
          ((⟨some 401, ⟨"/v1/protected/me", false⟩⟩, 0)
            :: [(⟨some 401, ⟨"/v1/protected/clients", false⟩⟩, 1)])).1.isRefreshing = true
      ∧ (runBurst (initSt ⟨some "old", some "rt"⟩)
          ((⟨some 401, ⟨"/v1/protected/me", false⟩⟩, 0)
            :: [(⟨some 401, ⟨"/v1/protected/clients", false⟩⟩, 1)])).1.failedQueue
          = (initSt ⟨some "old", some "rt"⟩).failedQueue
              ++ [((⟨some 401, ⟨"/v1/protected/clients", false⟩⟩ : AxiosError), 1)].map
                  Prod.snd) :=
  ⟨by decide, by decide, by decide, by decide,
    single_flight_refresh (initSt ⟨some "old", some "rt"⟩) "rt"
      ⟨some 401, ⟨"/v1/protected/me", false⟩⟩ 0
      [(⟨some 401, ⟨"/v1/protected/clients", false⟩⟩, 1)]
      (by decide) (by decide) (by decide) (by decide)⟩

/-- Claim C5: a 401 on a sign-in, sign-up or refresh-token URL is rejected
immediately with the original error: the whole interceptor state — queue,
flags, stored tokens, counters — is untouched and no refresh is dispatched. -/
theorem auth_endpoint_exemption (st : St) (e : AxiosError) (w : Nat)
    (h1 : e.status = some 401) (h2 : e.config._retry = false)
    (h3 : isAuthEndpointUrl e.config.url = true) :
    handleResponseError st e w = (st, EntryOut.rejectAuthEndpoint) := by
  simp [handleResponseError, h1, h2, h3]

/-- Claim C5 witness: a 401 on the sign-in endpoint is rejected untouched. -/
theorem auth_endpoint_exemption_witness :
    (some 401 : Option Nat) = some 401
  ∧ false = false
  ∧ isAuthEndpointUrl "/v1/public/auth/sign-in" = true
  ∧ handleResponseError (initSt ⟨some "a", some "r"⟩)
      ⟨some 401, ⟨"/v1/public/auth/sign-in", false⟩⟩ 0
      = (initSt ⟨some "a", some "r"⟩, EntryOut.rejectAuthEndpoint) :=
  ⟨rfl, rfl, by decide,
    auth_endpoint_exemption (initSt ⟨some "a", some "r"⟩)
      ⟨some 401, ⟨"/v1/public/auth/sign-in", false⟩⟩ 0 rfl rfl (by decide)⟩

/-- Claim C6: a rejection whose status is not 401 — and a 401 on a request
already stamped `_retry` — passes through unchanged: the interceptor rejects
with the original error and the whole state (queue, flags, tokens, redirect
and refresh counters) is untouched. -/
theorem non_401_pass_through (st : St) (e : AxiosError) (w : Nat)
    (h : e.status ≠ some 401 ∨ e.config._retry = true) :
    handleResponseError st e w = (st, EntryOut.passThrough) := by
  rcases h with h | h
  · have hb : (e.status == some 401) = false := by simp [h]
    simp [handleResponseError, hb]
  · simp [handleResponseError, h]

/-- Claim C6 witness: a 500 passes through with the state untouched. -/
theorem non_401_pass_through_witness :
    ((some 500 : Option Nat) ≠ some 401 ∨ false = true)
  ∧ handleResponseError (initSt ⟨some "a", some "r"⟩)
      ⟨some 500, ⟨"/v1/protected/me", false⟩⟩ 0
      = (initSt ⟨some "a", some "r"⟩, EntryOut.passThrough) :=
  ⟨Or.inl (by decide),
    non_401_pass_through (initSt ⟨some "a", some "r"⟩)
      ⟨some 500, ⟨"/v1/protected/me", false⟩⟩ 0 (Or.inl (by decide))⟩

/-- Claim C2: when the refresh path ends in failure, both failure branches
behave as the spec says. If the dispatched refresh call rejects, both stored
tokens are cleared, every queued waiter is rejected, the redirect to the
sign-in page fires exactly once, and the original caller is rejected. If
instead no refresh token is stored — which in any reachable quiescent state
means the waiter queue is empty, so every queued waiter is (vacuously)
rejected — the tokens are cleared, the redirect fires exactly once, and the
caller is rejected. -/
theorem refresh_failure_semantics (st : St) (store : TokenStore) (evs : List Event)
    (e : AxiosError) (w : Nat)
    (hr : (run store evs).isRefreshing = false)
    (ht : (run store evs).store.refresh_token = none)
    (he : PlainAuthFailure e) :
    ((onRefreshSettled st RefreshOutcome.failure).1.store.access_token = none
      ∧ (onRefreshSettled st RefreshOutcome.failure).1.store.refresh_token = none
      ∧ (onRefreshSettled st RefreshOutcome.failure).2.1
          = st.failedQueue.map (fun q => (q, WaiterSignal.rejected))
      ∧ (onRefreshSettled st RefreshOutcome.failure).1.redirects = st.redirects + 1
      ∧ (onRefreshSettled st RefreshOutcome.failure).2.2 = SettleOut.rejectCaller)
  ∧ ((run store evs).failedQueue = []
      ∧ (handleResponseError (run store evs) e w).1.store.access_token = none
      ∧ (handleResponseError (run store evs) e w).1.store.refresh_token = none
      ∧ (handleResponseError (run store evs) e w).1.redirects
          = (run store evs).redirects + 1
      ∧ (handleResponseError (run store evs) e w).2 = EntryOut.rejectNoToken
      ∧ (handleResponseError (run store evs) e w).1.failedQueue = []) := by
  have hq : (run store evs).failedQueue = [] := queueInv_run store evs hr
  have hno := handleResponseError_noToken (run store evs) e w hr ht he
  constructor
  · refine ⟨?_, ?_, ?_, ?_, ?_⟩ <;> simp [onRefreshSettled, processQueue, logout]
  · refine ⟨hq, ?_, ?_, ?_, ?_, ?_⟩ <;> simp [hno, logout, hq]

/-- Claim C2 witness: concrete failing refresh with two waiters, and a
concrete no-refresh-token 401 from the freshly constructed client. -/
theorem refresh_failure_semantics_witness :
    (run exStoreNoRefresh []).isRefreshing = false
  ∧ (run exStoreNoRefresh []).store.refresh_token = none
  ∧ PlainAuthFailure exErr
  ∧ (((onRefreshSettled exMidSt RefreshOutcome.failure).1.store.access_token = none
      ∧ (onRefreshSettled exMidSt RefreshOutcome.failure).1.store.refresh_token = none
      ∧ (onRefreshSettled exMidSt RefreshOutcome.failure).2.1
          = exMidSt.failedQueue.map (fun q => (q, WaiterSignal.rejected))
      ∧ (onRefreshSettled exMidSt RefreshOutcome.failure).1.redirects
          = exMidSt.redirects + 1
      ∧ (onRefreshSettled exMidSt RefreshOutcome.failure).2.2 = SettleOut.rejectCaller)
    ∧ ((run exStoreNoRefresh []).failedQueue = []
      ∧ (handleResponseError (run exStoreNoRefresh []) exErr 0).1.store.access_token = none
      ∧ (handleResponseError (run exStoreNoRefresh []) exErr 0).1.store.refresh_token = none
      ∧ (handleResponseError (run exStoreNoRefresh []) exErr 0).1.redirects
          = (run exStoreNoRefresh []).redirects + 1
      ∧ (handleResponseError (run exStoreNoRefresh []) exErr 0).2 = EntryOut.rejectNoToken
      ∧ (handleResponseError (run exStoreNoRefresh []) exErr 0).1.failedQueue = [])) :=
  ⟨by decide, by decide, by decide,
    refresh_failure_semantics exMidSt exStoreNoRefresh [] exErr 0
      (by decide) (by decide) (by decide)⟩

/-- Claim C3 counterexample: with an access token but no refresh token
stored, a plain 401 takes the no-refresh-token branch, and `isRefreshing` is
left `true` — it is never reset to `false` — because the `finally` that
resets it only wraps the `try` of the dispatched refresh call. -/
theorem flag_lifecycle_counterexample :
    (handleResponseError (initSt ⟨some "a", none⟩)
        ⟨some 401, ⟨"/v1/protected/me", false⟩⟩ 0).2 = EntryOut.rejectNoToken
  ∧ (handleResponseError (initSt ⟨some "a", none⟩)
        ⟨some 401, ⟨"/v1/protected/me", false⟩⟩ 0).1.isRefreshing = true
  ∧ ¬ (handleResponseError (initSt ⟨some "a", none⟩)
        ⟨some 401, ⟨"/v1/protected/me", false⟩⟩ 0).1.isRefreshing = false := by
  decide

/-- Claim C3 (amended): after a refresh attempt that was actually dispatched
settles — success or failure — `isRefreshing` is reset to `false` and
`failedQueue` is drained exactly once (every waiter present at settlement
gets the signal matching the outcome) and then cleared; but in the
no-refresh-token branch no refresh is dispatched and `isRefreshing` is set
to `true` and never reset. -/
theorem flag_lifecycle (st st' : St) (out : RefreshOutcome) (e : AxiosError) (w : Nat)
    (h0 : st'.isRefreshing = false) (h1 : st'.store.refresh_token = none)
    (he : PlainAuthFailure e) :
    ((onRefreshSettled st out).1.isRefreshing = false
      ∧ (onRefreshSettled st out).1.failedQueue = []
      ∧ (onRefreshSettled st out).2.1
          = st.failedQueue.map (fun q => (q, settleSignal out)))
  ∧ (handleResponseError st' e w).1.isRefreshing = true := by
  have hno := handleResponseError_noToken st' e w h0 h1 he
  constructor
  · cases out <;> simp [onRefreshSettled, processQueue, settleSignal]
  · simp [hno]

/-- Claim C3 (amended) witness: concrete settlements of both outcomes from a
mid-refresh state, and the concrete stuck no-refresh-token branch. -/
theorem flag_lifecycle_witness :
    (initSt ⟨some "a", none⟩).isRefreshing = false
  ∧ (initSt ⟨some "a", none⟩).store.refresh_token = none
  ∧ PlainAuthFailure exErr
  ∧ (((onRefreshSettled exMidSt RefreshOutcome.failure).1.isRefreshing = false
      ∧ (onRefreshSettled exMidSt RefreshOutcome.failure).1.failedQueue = []
      ∧ (onRefreshSettled exMidSt RefreshOutcome.failure).2.1
          = exMidSt.failedQueue.map (fun q => (q, settleSignal RefreshOutcome.failure)))
    ∧ (handleResponseError (initSt ⟨some "a", none⟩) exErr 0).1.isRefreshing = true) :=
  ⟨by decide, by decide, by decide,
    flag_lifecycle exMidSt (initSt ⟨some "a", none⟩) RefreshOutcome.failure exErr 0
      (by decide) (by decide) (by decide)⟩

/-- Claim C4: when the refresh call succeeds with a fresh access token, the
token is stored under `access_token`, the triggering request is replayed
with `Authorization: Bearer <fresh>`, every queued waiter is resolved and
rebuilds its header from storage after the settlement — also yielding
`Bearer <fresh>` — and neither replay header can be the one built from a
different (old) token. -/
theorem fresh_token_replay (st : St) (tok old : String) (hne : old ≠ tok) :
    (onRefreshSettled st (RefreshOutcome.success tok)).1.store.access_token = some tok
  ∧ (onRefreshSettled st (RefreshOutcome.success tok)).2.2
      = SettleOut.replay ("Bearer " ++ tok)
  ∧ waiterReplayHeader (onRefreshSettled st (RefreshOutcome.success tok)).1
      = "Bearer " ++ tok
  ∧ (onRefreshSettled st (RefreshOutcome.success tok)).2.1
      = st.failedQueue.map (fun q => (q, WaiterSignal.resolved))
  ∧ ("Bearer " ++ tok : String) ≠ "Bearer " ++ old
  ∧ waiterReplayHeader (onRefreshSettled st (RefreshOutcome.success tok)).1
      ≠ "Bearer " ++ old := by
  have hne' : ("Bearer " ++ tok : String) ≠ "Bearer " ++ old :=
    fun hcontra => hne (bearer_append_inj old tok hcontra.symm)
  refine ⟨?_, ?_, ?_, ?_, hne', ?_⟩ <;>
    simp [onRefreshSettled, processQueue, waiterReplayHeader, jsString]
  exact fun hcontra => hne (bearer_append_inj old tok hcontra.symm)

/-- Claim C4 witness: concrete successful refresh over two waiters. -/
theorem fresh_token_replay_witness :
    ("old" : String) ≠ "new"
  ∧ ((onRefreshSettled exMidSt (RefreshOutcome.success "new")).1.store.access_token
        = some "new"
    ∧ (onRefreshSettled exMidSt (RefreshOutcome.success "new")).2.2
        = SettleOut.replay ("Bearer " ++ "new")
    ∧ waiterReplayHeader (onRefreshSettled exMidSt (RefreshOutcome.success "new")).1
        = "Bearer " ++ "new"
    ∧ (onRefreshSettled exMidSt (RefreshOutcome.success "new")).2.1
        = exMidSt.failedQueue.map (fun q => (q, WaiterSignal.resolved))
    ∧ ("Bearer " ++ "new" : String) ≠ "Bearer " ++ "old"
    ∧ waiterReplayHeader (onRefreshSettled exMidSt (RefreshOutcome.success "new")).1
        ≠ "Bearer " ++ "old") :=
  ⟨by decide, fresh_token_replay exMidSt "new" "old" (by decide)⟩

/-- Claim C9: the refresh path writes only the `access_token` key. The
dispatching entry step leaves the whole storage untouched, and a successful
settlement stores the fresh access token while leaving `refresh_token`
exactly as it was; only `logout` clears it. -/
theorem refresh_frame_condition (st1 st2 : St) (e : AxiosError) (w : Nat)
    (rt tok : String)
    (h0 : st1.isRefreshing = false) (h1 : st1.store.refresh_token = some rt)
    (he : PlainAuthFailure e) :
    (handleResponseError st1 e w).1.store = st1.store
  ∧ (handleResponseError st1 e w).2
      = EntryOut.refreshDispatched rt { e.config with _retry := true }
  ∧ (onRefreshSettled st2 (RefreshOutcome.success tok)).1.store.refresh_token
      = st2.store.refresh_token
  ∧ (onRefreshSettled st2 (RefreshOutcome.success tok)).1.store.access_token = some tok
  ∧ (logout st2.store).refresh_token = none := by
  have hd := handleResponseError_dispatch st1 e w rt h0 h1 he
  refine ⟨?_, ?_, ?_, ?_, ?_⟩ <;> simp [hd, onRefreshSettled, processQueue, logout]

/-- Claim C9 witness: a concrete dispatch plus successful settlement keeps
the stored refresh token. -/
theorem refresh_frame_condition_witness :
    (initSt ⟨some "old", some "rt"⟩).isRefreshing = false
  ∧ (initSt ⟨some "old", some "rt"⟩).store.refresh_token = some "rt"
  ∧ PlainAuthFailure exErr
  ∧ ((handleResponseError (initSt ⟨some "old", some "rt"⟩) exErr 0).1.store
        = (initSt ⟨some "old", some "rt"⟩).store
    ∧ (handleResponseError (initSt ⟨some "old", some "rt"⟩) exErr 0).2
        = EntryOut.refreshDispatched "rt" { exErr.config with _retry := true }
    ∧ (onRefreshSettled exMidSt (RefreshOutcome.success "new")).1.store.refresh_token
        = exMidSt.store.refresh_token
    ∧ (onRefreshSettled exMidSt (RefreshOutcome.success "new")).1.store.access_token
        = some "new"
    ∧ (logout exMidSt.store).refresh_token = none) :=
  ⟨by decide, by decide, by decide,
    refresh_frame_condition (initSt ⟨some "old", some "rt"⟩) exMidSt exErr 0 "rt" "new"
      (by decide) (by decide) (by decide)⟩

end Api

namespace Form

/-- An invoice item as held in the form state (`InvoiceItem` in
types/index.ts): optional backend id, description, numeric quantity,
unit price and total. -/
structure InvoiceItem where
  id : Option Nat
  description : String
  quantity : ℚ
  unit_price : ℚ
  total : ℚ
deriving DecidableEq

/-- A `(field, value)` pair as passed to `handleItemChange`
(`field : keyof InvoiceItem`, `value : string | number`). -/
inductive ItemFieldValue where
  | id (v : Option Nat)
  | description (v : String)
  | quantity (v : ℚ)
  | unit_price (v : ℚ)
  | total (v : ℚ)
deriving DecidableEq

/-- The computed update `{ ...item, [field]: value }`. -/
def setField (it : InvoiceItem) : ItemFieldValue → InvoiceItem
  | ItemFieldValue.id v => { it with id := v }
  | ItemFieldValue.description v => { it with description := v }
  | ItemFieldValue.quantity v => { it with quantity := v }
  | ItemFieldValue.unit_price v => { it with unit_price := v }
  | ItemFieldValue.total v => { it with total := v }

/-- The test `field === "quantity" || field === "unit_price"`. -/
def isQtyOrPrice : ItemFieldValue → Bool
  | ItemFieldValue.quantity _ => true
  | ItemFieldValue.unit_price _ => true
  | _ => false

/-- `InvoiceForm.handleItemChange` (part_002 lines 96-114): copy the items,
overwrite one field of the item at `index`, and when that field was
`quantity` or `unit_price` recompute the item's `total` as
`quantity * unit_price` of the updated item. The form only ever calls it
with an index of a rendered (hence existing) item. -/
def handleItemChange (items : List InvoiceItem) (index : Nat) (f : ItemFieldValue) :
    List InvoiceItem :=
  match items[index]? with
  | none => items
  | some it =>
      let it1 := setField it f
      let it2 := if isQtyOrPrice f
        then { it1 with total := it1.quantity * it1.unit_price }
        else it1
      items.set index it2

/-- The fresh blank row appended by `addItem` (part_002 lines 119-132), which
is also the single row of the initial form state
(CreateInvoicePage.tsx lines 27-33). -/
def newItem : InvoiceItem := ⟨none, "", 1, 0, 0⟩

/-- `InvoiceForm.addItem`: append one blank row. -/
def addItem (items : List InvoiceItem) : List InvoiceItem := items ++ [newItem]

/-- `InvoiceForm.removeItem` (part_002 lines 134-142): when more than one row
exists, drop the row at `index` via `filter((_, i) => i !== index)`;
otherwise do nothing. -/
def removeItem (items : List InvoiceItem) (index : Nat) : List InvoiceItem :=
  if 1 < items.length then
    (items.enum.filter (fun p => p.1 != index)).map Prod.snd
  else items

/-- `CreateInvoicePage`'s initial `items` state: exactly one blank row. -/
def initialItems : List InvoiceItem := [newItem]

/-- The form operations that touch the items list. -/
inductive FormOp where
  | add
  | remove (index : Nat)
  | change (index : Nat) (f : ItemFieldValue)

/-- Dispatch one form operation on the items list. -/
def applyFormOp (items : List InvoiceItem) : FormOp → List InvoiceItem
  | FormOp.add => addItem items
  | FormOp.remove i => removeItem items i
  | FormOp.change i f => handleItemChange items i f

/-- Positions ≥ n never match an index < n, so the filter keeps everything. -/
theorem enumFrom_filter_ge {α : Type} (l : List α) (n index : Nat) (h : index < n) :
    (l.enumFrom n).filter (fun p => p.1 != index) = l.enumFrom n := by
  induction l generalizing n with
  | nil => rfl
  | cons a l ih =>
      have hne : (n != index) = true := by
        simp only [bne_iff_ne, ne_eq]
        omega
      simp [List.enumFrom, List.filter, hne, ih (n + 1) (by omega)]

/-- Filtering one index out of an enumeration drops at most one element. -/
theorem length_filter_enumFrom {α : Type} (l : List α) (n index : Nat) :
    l.length ≤ ((l.enumFrom n).filter (fun p => p.1 != index)).length + 1 := by
  induction l generalizing n with
  | nil => simp
  | cons a l ih =>
      by_cases hn : n = index
      · subst hn
        have hrest := enumFrom_filter_ge l (n + 1) n (by omega)
        simp [List.enumFrom, List.filter, hrest]
      · have hne : (n != index) = true := by simp [hn]
        have := ih (n + 1)
        simp only [List.enumFrom, List.filter, hne, List.length_cons, if_pos]
        omega

/-- `removeItem` keeps the items list non-empty. -/
theorem removeItem_length (items : List InvoiceItem) (index : Nat)
    (h : 1 ≤ items.length) :
    1 ≤ (removeItem items index).length := by
  unfold removeItem
  split
  · rename_i hlen
    have hf := length_filter_enumFrom items 0 index
    rw [List.length_map]
    rw [List.enum] at *
    omega
  · exact h

/-- `handleItemChange` never changes how many items there are. -/
theorem handleItemChange_length (items : List InvoiceItem) (i : Nat)
    (f : ItemFieldValue) :
    (handleItemChange items i f).length = items.length := by
  unfold handleItemChange
  cases h : items[i]? <;> simp [h]

/-- On a valid index, `handleItemChange` for a numeric field is a point
update whose `total` is recomputed from the updated item. -/
theorem handleItemChange_eq (items : List InvoiceItem) (i : Nat) (f : ItemFieldValue)
    (it : InvoiceItem) (hit : items[i]? = some it) (hf : isQtyOrPrice f = true) :
    handleItemChange items i f
      = items.set i { setField it f with
          total := (setField it f).quantity * (setField it f).unit_price } := by
  unfold handleItemChange
  simp [hit, hf]

/-- A successful indexed lookup bounds the index. -/
theorem lt_of_hit (items : List InvoiceItem) (i : Nat) (it : InvoiceItem)
    (hit : items[i]? = some it) : i < items.length := by
  by_contra h
  rw [List.getElem?_eq_none (by omega)] at hit
  exact Option.noConfusion hit

/-- Claim C7: after `handleItemChange` sets `quantity` or `unit_price`, the
touched item satisfies `total = quantity * unit_price`; and setting
`quantity := 3` and `unit_price := 1500` in either order produces the same
items list, whose touched item has total 4500. -/
theorem item_total_recomputation (items : List InvoiceItem) (i : Nat)
    (f : ItemFieldValue) (it : InvoiceItem)
    (hf : isQtyOrPrice f = true)
    (hit : items[i]? = some it) :
    (∀ it' : InvoiceItem, (handleItemChange items i f)[i]? = some it' →
        it'.total = it'.quantity * it'.unit_price)
  ∧ handleItemChange (handleItemChange items i (ItemFieldValue.quantity 3)) i
        (ItemFieldValue.unit_price 1500)
      = handleItemChange (handleItemChange items i (ItemFieldValue.unit_price 1500)) i
        (ItemFieldValue.quantity 3)
  ∧ (handleItemChange (handleItemChange items i (ItemFieldValue.quantity 3)) i
        (ItemFieldValue.unit_price 1500))[i]?
      = some { it with quantity := 3, unit_price := 1500, total := 4500 } := by
  have hlen := lt_of_hit items i it hit
  have h1 := handleItemChange_eq items i f it hit hf
  have hset : (handleItemChange items i f)[i]?
      = some { setField it f with
          total := (setField it f).quantity * (setField it f).unit_price } := by
    rw [h1]
    exact List.getElem?_set_eq_of_lt _ hlen
  have e1 : handleItemChange items i (ItemFieldValue.quantity 3)
      = items.set i
          (InvoiceItem.mk it.id it.description 3 it.unit_price (3 * it.unit_price)) := by
    unfold handleItemChange
    simp [hit, setField, isQtyOrPrice]
  have hm1 : (items.set i
        (InvoiceItem.mk it.id it.description 3 it.unit_price (3 * it.unit_price)))[i]?
      = some (InvoiceItem.mk it.id it.description 3 it.unit_price (3 * it.unit_price)) :=
    List.getElem?_set_eq_of_lt _ (by simpa using hlen)
  have e2 : handleItemChange (handleItemChange items i (ItemFieldValue.quantity 3)) i
        (ItemFieldValue.unit_price 1500)
      = items.set i (InvoiceItem.mk it.id it.description 3 1500 (3 * 1500)) := by
    rw [e1]
    unfold handleItemChange
    simp [hm1, setField, isQtyOrPrice, List.set_set]
  have e1' : handleItemChange items i (ItemFieldValue.unit_price 1500)
      = items.set i
          (InvoiceItem.mk it.id it.description it.quantity 1500 (it.quantity * 1500)) := by
    unfold handleItemChange
    simp [hit, setField, isQtyOrPrice]
  have hm1' : (items.set i
        (InvoiceItem.mk it.id it.description it.quantity 1500 (it.quantity * 1500)))[i]?
      = some (InvoiceItem.mk it.id it.description it.quantity 1500 (it.quantity * 1500)) :=
    List.getElem?_set_eq_of_lt _ (by simpa using hlen)
  have e2' : handleItemChange (handleItemChange items i (ItemFieldValue.unit_price 1500)) i
        (ItemFieldValue.quantity 3)
      = items.set i (InvoiceItem.mk it.id it.description 3 1500 (3 * 1500)) := by
    rw [e1']
    unfold handleItemChange
    simp [hm1', setField, isQtyOrPrice, List.set_set]
  refine ⟨?_, ?_, ?_⟩
  · intro it' hit'
    rw [hset] at hit'
    rw [← Option.some.inj hit']
  · rw [e2, e2']
  · rw [e2, List.getElem?_set_eq_of_lt _ (by simpa using hlen)]
    norm_num

/-- Claim C7 witness: one concrete row edited to quantity 3 then unit price
1500, and in the reverse order, ends with total 4500 either way. -/
theorem item_total_recomputation_witness :
    isQtyOrPrice (ItemFieldValue.quantity 3) = true
  ∧ ([(⟨none, "x", 2, 10, 20⟩ : InvoiceItem)])[0]? = some ⟨none, "x", 2, 10, 20⟩
  ∧ ((∀ it' : InvoiceItem,
        (handleItemChange [(⟨none, "x", 2, 10, 20⟩ : InvoiceItem)] 0
          (ItemFieldValue.quantity 3))[0]? = some it' →
        it'.total = it'.quantity * it'.unit_price)
    ∧ handleItemChange (handleItemChange [(⟨none, "x", 2, 10, 20⟩ : InvoiceItem)] 0
          (ItemFieldValue.quantity 3)) 0 (ItemFieldValue.unit_price 1500)
        = handleItemChange (handleItemChange [(⟨none, "x", 2, 10, 20⟩ : InvoiceItem)] 0
          (ItemFieldValue.unit_price 1500)) 0 (ItemFieldValue.quantity 3)
    ∧ (handleItemChange (handleItemChange [(⟨none, "x", 2, 10, 20⟩ : InvoiceItem)] 0
          (ItemFieldValue.quantity 3)) 0 (ItemFieldValue.unit_price 1500))[0]?
        = some { (⟨none, "x", 2, 10, 20⟩ : InvoiceItem) with
            quantity := 3, unit_price := 1500, total := 4500 }) :=
  ⟨rfl, rfl,
    item_total_recomputation [⟨none, "x", 2, 10, 20⟩] 0 (ItemFieldValue.quantity 3)
      ⟨none, "x", 2, 10, 20⟩ rfl rfl⟩

/-- Claim C10: every sequence of form operations, starting from the initial
single-row state, keeps at least one item: `addItem` only appends,
`removeItem` refuses to drop the last row, and `handleItemChange` preserves
the count. -/
theorem nonempty_items_invariant (ops : List FormOp) :
    1 ≤ (ops.foldl applyFormOp initialItems).length := by
  have gen : ∀ (rest : List FormOp) (items : List InvoiceItem), 1 ≤ items.length →
      1 ≤ (rest.foldl applyFormOp items).length := by
    intro rest
    induction rest with
    | nil => exact fun items h => h
    | cons op rest ih =>
        intro items h
        refine ih _ ?_
        cases op with
        | add => simp [applyFormOp, addItem]
        | remove i => exact removeItem_length items i h
        | change i f => rw [applyFormOp, handleItemChange_length]; exact h
  exact gen ops initialItems (by decide)

end Form

namespace Auth

/-- The shape of a login failure as inspected by the `catch` block of
`AuthProvider.login` (AuthContext.tsx lines 71-86): whether the thrown value
is an object carrying a `response`, the HTTP status of that response, and
the truthiness of the backend's `data.data.can_restore` flag (`false` also
covers an absent flag or absent `data`). -/
structure LoginError where
  hasResponse : Bool
  status : Nat
  can_restore : Bool
deriving DecidableEq

/-- What `login` ultimately throws for a failed attempt: the distinct
`new Error('ACCOUNT_DEACTIVATED')`, or the original error re-thrown. -/
inductive LoginFailure where
  | accountDeactivated
  | original (e : LoginError)
deriving DecidableEq

/-- The `catch` block of `AuthProvider.login`, with the same nesting as the
source: only an error that has a response, whose status is 403, and whose
`data.data.can_restore` is truthy becomes `ACCOUNT_DEACTIVATED`; every other
error falls through to `throw error`. -/
def classifyLoginError (e : LoginError) : LoginFailure :=
  if e.hasResponse then
    if e.status == 403 then
      if e.can_restore then LoginFailure.accountDeactivated
      else LoginFailure.original e
    else LoginFailure.original e
  else LoginFailure.original e

/-- Claim C8: a login failure with HTTP 403 and a truthy `can_restore` flag
is thrown as the distinct `ACCOUNT_DEACTIVATED` signal, and every other
login failure — including a 403 without the flag — is re-thrown unchanged. -/
theorem deactivated_account_signal :
    (∀ e : LoginError, e.hasResponse = true → e.status = 403 → e.can_restore = true →
        classifyLoginError e = LoginFailure.accountDeactivated)
  ∧ (∀ e : LoginError, ¬ (e.hasResponse = true ∧ e.status = 403 ∧ e.can_restore = true) →
        classifyLoginError e = LoginFailure.original e) := by
  constructor
  · intro e h1 h2 h3
    simp [classifyLoginError, h1, h2, h3]
  · intro e h
    push_neg at h
    by_cases h1 : e.hasResponse = true
    · by_cases h2 : e.status = 403
      · have h3 : e.can_restore = false := by
          have := h h1 h2
          simp only [Bool.not_eq_true] at this
          exact this
        simp [classifyLoginError, h1, h2, h3]
      · have h2' : (e.status == 403) = false := by simp [h2]
        simp [classifyLoginError, h1, h2']
    · have h1' : e.hasResponse = false := by
        simp only [Bool.not_eq_true] at h1
        exact h1
      simp [classifyLoginError, h1']

/-- Claim C8 witness: a 403 with the flag becomes the typed signal; a 403
without the flag is re-thrown unchanged. -/
theorem deactivated_account_signal_witness :
    classifyLoginError ⟨true, 403, true⟩ = LoginFailure.accountDeactivated
  ∧ classifyLoginError ⟨true, 403, false⟩ = LoginFailure.original ⟨true, 403, false⟩ :=
  ⟨deactivated_account_signal.1 ⟨true, 403, true⟩ rfl rfl rfl,
    deactivated_account_signal.2 ⟨true, 403, false⟩ (by decide)⟩

end Auth
